import Mathlib

/-
  Verification of the TCP socket utility layer in src/src/tcp-sock.c
  (PCW-Learning/sw_tcp_sock) against its design specification.

  Each C function is shallowly embedded as a pure Lean function.  The
  outcomes of the underlying BSD socket syscalls (socket, setsockopt,
  bind, listen, connect, select, recv, send) are supplied as explicit
  oracle arguments, and each embedding additionally returns the ordered
  trace of syscalls it performed, so that claims about which calls
  happen (and in which order) are provable.  C `int` arithmetic is
  modelled on `Int`, with 32-bit twos-complement wraparound made
  explicit where overflow matters.
-/

namespace TcpSock

/-- Linux/glibc value of the socket-level option namespace `SOL_SOCKET`. -/
def SOL_SOCKET : Int := 1

/-- Linux/glibc value of the TCP protocol number `IPPROTO_TCP`. -/
def IPPROTO_TCP : Int := 6

/-- Linux/glibc value of the `SO_REUSEADDR` socket option name. -/
def SO_REUSEADDR : Int := 2

/-- Linux/glibc value of the `SO_REUSEPORT` socket option name. -/
def SO_REUSEPORT : Int := 15

/-- Linux/glibc value of the `SO_KEEPALIVE` socket option name. -/
def SO_KEEPALIVE : Int := 9

/-- Linux/glibc value of the `TCP_KEEPIDLE` socket option name. -/
def TCP_KEEPIDLE : Int := 4

/-- Linux/glibc value of the `TCP_KEEPINTVL` socket option name. -/
def TCP_KEEPINTVL : Int := 5

/-- Linux/glibc value of the `TCP_KEEPCNT` socket option name. -/
def TCP_KEEPCNT : Int := 6

/-- Linux/glibc value of the `MSG_PEEK` recv flag. -/
def MSG_PEEK : Int := 2

/-- Linux/glibc value of the `MSG_DONTWAIT` recv flag (0x40). -/
def MSG_DONTWAIT : Int := 64

/-- The wildcard IPv4 address `INADDR_ANY` (0.0.0.0). -/
def INADDR_ANY : Int := 0

/-- Modelled from the spec: the macro `TCP_TIME_OUT` is used by
`recvMsgTimeout` in src/src/tcp-sock.c but its `#define` is not among the
repository sources under src/.  The spec (section 8, "expect return 0
(timeout)") and the header doc comment ("타임아웃 시 0") fix its value
to 0. -/
def TCP_TIME_OUT : Int := 0

/-- Modelled from the spec: the macro `TCP_DISCONNECTION` is used by
`recvMsgTimeout` in src/src/tcp-sock.c but its `#define` is not among the
repository sources under src/.  The spec only says it is a dedicated
sentinel for a peer close, distinct from real byte counts (positive) and
from the error return -1; we model it as -2. -/
def TCP_DISCONNECTION : Int := -2

/-- Twos-complement 32-bit wraparound: the value a C `int` holds after an
operation whose mathematical result is `n` (2147483648 = 2^31,
4294967296 = 2^32). -/
def toInt32 (n : Int) : Int := (n + 2147483648) % 4294967296 - 2147483648

/-- Embeds the timeout conversion of `recvMsgTimeout`
(src/src/tcp-sock.c lines 218-219): `timeout.tv_sec = 0;
timeout.tv_usec = (iTimeoutMsec * 1000);`.  The multiplication is C `int`
arithmetic, modelled with 32-bit wraparound; the result is the
`(tv_sec, tv_usec)` pair handed to `select`. -/
def timeoutConv (timeoutMs : Int) : Int × Int :=
  (0, toInt32 (timeoutMs * 1000))

/-- Embeds `recvMsgTimeout` (src/src/tcp-sock.c lines 211-239), the
select-then-recv control flow.  `selectRet` is the oracle outcome of the
`select` call and `recvRet` the oracle outcome of the (at most one)
`recv` call.  Returns the C return value together with the number of
`recv` calls performed. -/
def recvMsgTimeout (selectRet recvRet : Int) : Int × Nat :=
  if selectRet < 0 then (-1, 0)
  else if selectRet = 0 then (TCP_TIME_OUT, 0)
  else
    if recvRet < 0 then (-1, 1)
    else if recvRet = 0 then (TCP_DISCONNECTION, 1)
    else (recvRet, 1)

/-- Claim C1: if select reports no readability (returns 0),
`recvMsgTimeout` returns the sentinel `TCP_TIME_OUT` without calling
recv; if select reports readability (returns positive), it performs
exactly one recv and returns its byte count if positive, the sentinel
`TCP_DISCONNECTION` if recv returns 0, or -1 if recv fails; if select
itself fails, it returns -1 without calling recv. -/
theorem recvMsgTimeout_spec (selectRet recvRet : Int) :
    (selectRet = 0 → recvMsgTimeout selectRet recvRet = (TCP_TIME_OUT, 0)) ∧
    (selectRet < 0 → recvMsgTimeout selectRet recvRet = (-1, 0)) ∧
    (0 < selectRet →
      (recvMsgTimeout selectRet recvRet).2 = 1 ∧
      (0 < recvRet → (recvMsgTimeout selectRet recvRet).1 = recvRet) ∧
      (recvRet = 0 → (recvMsgTimeout selectRet recvRet).1 = TCP_DISCONNECTION) ∧
      (recvRet < 0 → (recvMsgTimeout selectRet recvRet).1 = -1)) := by
  unfold recvMsgTimeout
  refine ⟨fun h0 => ?_, fun hneg => ?_, fun hpos => ?_⟩
  · simp [h0]
  · simp [hneg]
  · have h1 : ¬ selectRet < 0 := by omega
    have h2 : ¬ selectRet = 0 := by omega
    simp only [h1, h2, if_false]
    refine ⟨?_, fun hr => ?_, fun hr => ?_, fun hr => ?_⟩
    · split <;> [rfl; skip]
      split <;> rfl
    · have h3 : ¬ recvRet < 0 := by omega
      have h4 : ¬ recvRet = 0 := by omega
      simp [h3, h4]
    · simp [hr]
    · simp [hr]

/-- Claim C1 witness: concrete evaluations of the three select outcomes. -/
theorem recvMsgTimeout_spec_witness :
    recvMsgTimeout 0 7 = (TCP_TIME_OUT, 0) ∧
    recvMsgTimeout (-1) 7 = (-1, 0) ∧
    (recvMsgTimeout 1 7).2 = 1 ∧
    (recvMsgTimeout 1 7).1 = 7 ∧
    (recvMsgTimeout 1 0).1 = TCP_DISCONNECTION ∧
    (recvMsgTimeout 1 (-3)).1 = -1 :=
  ⟨(recvMsgTimeout_spec 0 7).1 rfl,
   (recvMsgTimeout_spec (-1) 7).2.1 (by norm_num),
   ((recvMsgTimeout_spec 1 7).2.2 (by norm_num)).1,
   ((recvMsgTimeout_spec 1 7).2.2 (by norm_num)).2.1 (by norm_num),
   ((recvMsgTimeout_spec 1 0).2.2 (by norm_num)).2.2.1 rfl,
   ((recvMsgTimeout_spec 1 (-3)).2.2 (by norm_num)).2.2.2 (by norm_num)⟩

/-- Claim C2 counterexample: the claim that every timeoutMs at least 1000
makes the microsecond field exceed 999999 is false: at
timeoutMs = 4294968 the 32-bit `int` multiplication timeoutMs * 1000
wraps around and the microsecond field is 704, below 1000000. -/
theorem timeoutConv_counterexample :
    1000 ≤ (4294968 : Int) ∧ (timeoutConv 4294968).2 = 704 ∧
    (timeoutConv 4294968).2 < 1000000 := by
  refine ⟨by norm_num, ?_, ?_⟩ <;> norm_num [timeoutConv, toInt32]

/-- Claim C2 (amended): `recvMsgTimeout` sets tv_sec = 0 and
tv_usec = timeoutMs * 1000 (a 32-bit `int` multiplication); for every
timeoutMs with 1000 ≤ timeoutMs ≤ 2147483 — the range in which the
multiplication does not overflow a 32-bit int — the microsecond field
exceeds 999999, so the conversion never produces a normalized
(seconds, microseconds) pair there. -/
theorem timeoutConv_overflow (t : Int) (h1 : 1000 ≤ t) (h2 : t ≤ 2147483) :
    (timeoutConv t).1 = 0 ∧ 999999 < (timeoutConv t).2 := by
  unfold timeoutConv toInt32
  refine ⟨rfl, ?_⟩
  have hlo : (0 : Int) ≤ t * 1000 + 2147483648 := by nlinarith
  have hhi : t * 1000 + 2147483648 < 4294967296 := by nlinarith
  have := Int.emod_eq_of_lt hlo hhi
  simp only [this]
  nlinarith

/-- Claim C2 witness: the amended bound evaluated at timeoutMs = 1500. -/
theorem timeoutConv_overflow_witness :
    (timeoutConv 1500).1 = 0 ∧ 999999 < (timeoutConv 1500).2 :=
  timeoutConv_overflow 1500 (by norm_num) (by norm_num)

/-- A syscall performed by one of the embedded functions, in the order the
C code issues them.  `setsockoptCall fd level optname value` records the
option written; `bindCall fd addr port` records the address bound
(`sin_port` holds `htons(iPort)`, recorded here as the port value
iPort mod 2^16 that the network-order field denotes). -/
inductive Event where
  | socketCall : Event
  | setsockoptCall : Int → Int → Int → Int → Event
  | bindCall : Int → Int → Int → Event
  | listenCall : Int → Int → Event
  | connectCall : Int → Int → Event
  | closeCall : Int → Event
  deriving DecidableEq, Repr

/-- Embeds `isPortAvailable` (src/src/tcp-sock.c lines 33-50).
`socketRet` and `bindRet` are the oracle outcomes of the `socket` and
`bind` syscalls.  Returns the C return value together with the syscall
trace: on socket failure the function returns -1 at once; otherwise it
binds to INADDR_ANY:port, closes the socket unconditionally, and returns
`(iResult==0)?0:-1`. -/
def isPortAvailable (socketRet bindRet port : Int) : Int × List Event :=
  if socketRet < 0 then (-1, [Event.socketCall])
  else
    ((if bindRet = 0 then 0 else -1),
     [Event.socketCall, Event.bindCall socketRet INADDR_ANY (port % 65536),
      Event.closeCall socketRet])

/-- Claim C6: when its temporary socket is created (socket succeeds),
`isPortAvailable` attempts to bind it to INADDR_ANY:port, closes that
socket regardless of whether the bind succeeded or failed, and returns 0
if and only if the bind succeeded, -1 otherwise. -/
theorem isPortAvailable_spec (socketRet bindRet port : Int)
    (hs : 0 ≤ socketRet) (hp0 : 0 ≤ port) (hp1 : port < 65536) :
    (isPortAvailable socketRet bindRet port).2 =
      [Event.socketCall, Event.bindCall socketRet INADDR_ANY port,
       Event.closeCall socketRet] ∧
    ((isPortAvailable socketRet bindRet port).1 = 0 ↔ bindRet = 0) ∧
    (bindRet ≠ 0 → (isPortAvailable socketRet bindRet port).1 = -1) := by
  have hns : ¬ socketRet < 0 := by omega
  have hmod : port % 65536 = port := Int.emod_eq_of_lt hp0 hp1
  unfold isPortAvailable
  simp only [hns, if_false, hmod]
  refine ⟨trivial, ?_, fun hb => ?_⟩
  · constructor
    · intro h
      by_contra hb
      simp [hb] at h
    · intro hb
      simp [hb]
  · simp [hb]

/-- Claim C6 witness: a successful socket (fd 3) with a succeeding bind and
with a failing bind, on port 8080. -/
theorem isPortAvailable_spec_witness :
    (isPortAvailable 3 0 8080).2 =
      [Event.socketCall, Event.bindCall 3 INADDR_ANY 8080, Event.closeCall 3] ∧
    (isPortAvailable 3 0 8080).1 = 0 ∧
    (isPortAvailable 3 (-1) 8080).1 = -1 :=
  ⟨(isPortAvailable_spec 3 0 8080 (by norm_num) (by norm_num) (by norm_num)).1,
   ((isPortAvailable_spec 3 0 8080 (by norm_num) (by norm_num) (by norm_num)).2.1).mpr rfl,
   (isPortAvailable_spec 3 (-1) 8080 (by norm_num) (by norm_num) (by norm_num)).2.2
     (by norm_num)⟩

/-- Embeds `createClientSocket` (src/src/tcp-sock.c lines 132-155).
`socketRet`, `ptonRet` and `connectRet` are the oracle outcomes of
`socket`, `inet_pton` (on the dotted-quad string) and `connect`.  Returns
the C return value together with the syscall trace: socket failure, an
`inet_pton` result ≤ 0 (invalid IPv4 literal), or connect failure each
return -1; otherwise the new descriptor is returned.  No path closes the
descriptor. -/
def createClientSocket (socketRet ptonRet connectRet port : Int) :
    Int × List Event :=
  if socketRet < 0 then (-1, [Event.socketCall])
  else if ptonRet ≤ 0 then (-1, [Event.socketCall])
  else if connectRet < 0 then
    (-1, [Event.socketCall, Event.connectCall socketRet (port % 65536)])
  else
    (socketRet, [Event.socketCall, Event.connectCall socketRet (port % 65536)])

/-- Claim C8: `createClientSocket` returns the new socket handle when
socket creation, the IPv4-literal parse and the synchronous connect all
succeed, and returns -1 whenever any of those three steps fails; the
trace on success is exactly a socket call followed by a connect call (no
other resolution step is performed). -/
theorem createClientSocket_spec (socketRet ptonRet connectRet port : Int) :
    (0 ≤ socketRet → 0 < ptonRet → 0 ≤ connectRet →
      (createClientSocket socketRet ptonRet connectRet port).1 = socketRet ∧
      (createClientSocket socketRet ptonRet connectRet port).2 =
        [Event.socketCall, Event.connectCall socketRet (port % 65536)]) ∧
    (socketRet < 0 ∨ ptonRet ≤ 0 ∨ connectRet < 0 →
      (createClientSocket socketRet ptonRet connectRet port).1 = -1) := by
  unfold createClientSocket
  constructor
  · intro hs hp hc
    have h1 : ¬ socketRet < 0 := by omega
    have h2 : ¬ ptonRet ≤ 0 := by omega
    have h3 : ¬ connectRet < 0 := by omega
    simp [h1, h2, h3]
  · intro hfail
    rcases hfail with h | h | h
    · simp [h]
    · split
      · rfl
      · simp [h]
    · split
      · rfl
      · split
        · rfl
        · simp [h]

/-- Claim C8 witness: all-success run (fd 5) and each of the three failure
steps on port 9000. -/
theorem createClientSocket_spec_witness :
    (createClientSocket 5 1 0 9000).1 = 5 ∧
    (createClientSocket 5 1 0 9000).2 =
      [Event.socketCall, Event.connectCall 5 9000] ∧
    (createClientSocket (-1) 1 0 9000).1 = -1 ∧
    (createClientSocket 5 0 0 9000).1 = -1 ∧
    (createClientSocket 5 1 (-1) 9000).1 = -1 :=
  ⟨((createClientSocket_spec 5 1 0 9000).1 (by norm_num) (by norm_num)
      (by norm_num)).1,
   ((createClientSocket_spec 5 1 0 9000).1 (by norm_num) (by norm_num)
      (by norm_num)).2,
   (createClientSocket_spec (-1) 1 0 9000).2 (Or.inl (by norm_num)),
   (createClientSocket_spec 5 0 0 9000).2 (Or.inr (Or.inl (by norm_num))),
   (createClientSocket_spec 5 1 (-1) 9000).2 (Or.inr (Or.inr (by norm_num)))⟩

/-- Claim C10: when `createClientSocket` fails after its socket creation
succeeded — the IPv4 parse or the connect fails — it returns -1 and its
trace contains no close of any descriptor, so the descriptor it created
leaks; by contrast `isPortAvailable` with a successfully created
temporary socket closes it whatever the bind outcome. -/
theorem createClientSocket_leak (socketRet ptonRet connectRet port : Int)
    (hs : 0 ≤ socketRet) (hfail : ptonRet ≤ 0 ∨ connectRet < 0) :
    (createClientSocket socketRet ptonRet connectRet port).1 = -1 ∧
    (∀ fd, Event.closeCall fd ∉
      (createClientSocket socketRet ptonRet connectRet port).2) ∧
    (∀ bindRet, Event.closeCall socketRet ∈
      (isPortAvailable socketRet bindRet port).2) := by
  have h1 : ¬ socketRet < 0 := by omega
  refine ⟨?_, ?_, ?_⟩
  · exact (createClientSocket_spec socketRet ptonRet connectRet port).2
      (Or.inr hfail)
  · intro fd
    unfold createClientSocket
    simp only [h1, if_false]
    rcases hfail with h | h
    · simp [h]
    · by_cases hp : ptonRet ≤ 0
      · simp [hp]
      · simp [hp, h]
  · intro bindRet
    unfold isPortAvailable
    simp [h1]

/-- Claim C10 witness: fd 4 with a failing connect (port 9000); the result
is -1, the trace closes nothing, and `isPortAvailable` closes fd 4. -/
theorem createClientSocket_leak_witness :
    (createClientSocket 4 1 (-1) 9000).1 = -1 ∧
    (∀ fd, Event.closeCall fd ∉ (createClientSocket 4 1 (-1) 9000).2) ∧
    (∀ bindRet, Event.closeCall 4 ∈ (isPortAvailable 4 bindRet 9000).2) :=
  createClientSocket_leak 4 1 (-1) 9000 (by norm_num)
    (Or.inr (by norm_num))

/-- The failure branch a `createServerSocket` run exits the process from
(each corresponds to one perror-then-exit site in the C function). -/
inductive ExitStep where
  | socketStep : ExitStep
  | reuseStep : ExitStep
  | keepaliveStep : ExitStep
  | keepidleStep : ExitStep
  | keepintvlStep : ExitStep
  | keepcntStep : ExitStep
  | bindStep : ExitStep
  | listenStep : ExitStep
  deriving DecidableEq, Repr

/-- Outcome of a `createServerSocket` run: either the process terminated
through `exit(EXIT_FAILURE)` at the given site, or the function returned
the given descriptor. -/
inductive ServerResult where
  | exitFailure : ExitStep → ServerResult
  | ret : Int → ServerResult
  deriving DecidableEq, Repr

/-- Oracle outcomes of the eight syscalls `createServerSocket` can issue,
in program order: socket, the address-reuse setsockopt, the four
keep-alive setsockopts, bind, listen. -/
structure ServerOracle where
  socketRet : Int
  reuseRet : Int
  keepaliveRet : Int
  keepidleRet : Int
  keepintvlRet : Int
  keepcntRet : Int
  bindRet : Int
  listenRet : Int
  deriving DecidableEq, Repr

/-- Embeds `createServerSocket` (src/src/tcp-sock.c lines 52-129).
Faithful to the source tests: the socket result is compared with `== 0`
(line 58) — not `< 0` — so a `socket` failure return of -1 does NOT take
the `Socket failed` exit branch; the reuse setsockopt exits when nonzero
(line 66); the four keep-alive setsockopts, bind and listen exit when
negative.  The outcome of each syscall comes from the oracle `o`; the trace
records every call made with the option values the code writes
(keep-alive 1, idle 10, interval 5, count 3). -/
def createServerSocket (o : ServerOracle) (port maxClients : Int) :
    ServerResult × List Event :=
  let fd := o.socketRet
  let e1 := [Event.socketCall]
  if fd = 0 then (ServerResult.exitFailure ExitStep.socketStep, e1)
  else
    let e2 := e1 ++ [Event.setsockoptCall fd SOL_SOCKET
      (Int.lor SO_REUSEADDR SO_REUSEPORT) 1]
    if o.reuseRet ≠ 0 then (ServerResult.exitFailure ExitStep.reuseStep, e2)
    else
      let e3 := e2 ++ [Event.setsockoptCall fd SOL_SOCKET SO_KEEPALIVE 1]
      if o.keepaliveRet < 0 then
        (ServerResult.exitFailure ExitStep.keepaliveStep, e3)
      else
        let e4 := e3 ++ [Event.setsockoptCall fd IPPROTO_TCP TCP_KEEPIDLE 10]
        if o.keepidleRet < 0 then
          (ServerResult.exitFailure ExitStep.keepidleStep, e4)
        else
          let e5 := e4 ++ [Event.setsockoptCall fd IPPROTO_TCP TCP_KEEPINTVL 5]
          if o.keepintvlRet < 0 then
            (ServerResult.exitFailure ExitStep.keepintvlStep, e5)
          else
            let e6 := e5 ++ [Event.setsockoptCall fd IPPROTO_TCP TCP_KEEPCNT 3]
            if o.keepcntRet < 0 then
              (ServerResult.exitFailure ExitStep.keepcntStep, e6)
            else
              let e7 := e6 ++ [Event.bindCall fd INADDR_ANY (port % 65536)]
              if o.bindRet < 0 then
                (ServerResult.exitFailure ExitStep.bindStep, e7)
              else
                let e8 := e7 ++ [Event.listenCall fd maxClients]
                if o.listenRet < 0 then
                  (ServerResult.exitFailure ExitStep.listenStep, e8)
                else (ServerResult.ret fd, e8)

/-- Claim C3: the source tests the socket result with `== 0` instead of
`< 0`, so a failing `socket` call (return -1) does NOT fatal-exit at the
socket step: with realistic later outcomes (setsockopt on the bad
descriptor fails) the process exits with the `Setsockopt failed` message
instead, and with all later syscalls succeeding the function even
returns -1 instead of exiting; conversely a successful `socket` call
that returns descriptor 0 does take the `Socket failed` exit. -/
theorem createServerSocket_socketFail :
    (createServerSocket ⟨-1, -1, 0, 0, 0, 0, 0, 0⟩ 8080 5).1 =
      ServerResult.exitFailure ExitStep.reuseStep ∧
    (createServerSocket ⟨-1, 0, 0, 0, 0, 0, 0, 0⟩ 8080 5).1 =
      ServerResult.ret (-1) ∧
    (createServerSocket ⟨0, 0, 0, 0, 0, 0, 0, 0⟩ 8080 5).1 =
      ServerResult.exitFailure ExitStep.socketStep := by
  refine ⟨?_, ?_, ?_⟩ <;> rfl

/-- Claim C4: when `createServerSocket` returns (rather than exiting), it
returns the descriptor the socket call produced, and its syscall trace
is exactly: socket; the address-reuse setsockopt; the four keep-alive
setsockopts SO_KEEPALIVE=1, TCP_KEEPIDLE=10, TCP_KEEPINTVL=5,
TCP_KEEPCNT=3 in that order; then bind to INADDR_ANY:port; then listen
with backlog maxClients. -/
theorem createServerSocket_keepalive (o : ServerOracle) (port maxClients : Int)
    (fd : Int) (h : (createServerSocket o port maxClients).1 = ServerResult.ret fd) :
    fd = o.socketRet ∧
    (createServerSocket o port maxClients).2 =
      [Event.socketCall,
       Event.setsockoptCall o.socketRet SOL_SOCKET
         (Int.lor SO_REUSEADDR SO_REUSEPORT) 1,
       Event.setsockoptCall o.socketRet SOL_SOCKET SO_KEEPALIVE 1,
       Event.setsockoptCall o.socketRet IPPROTO_TCP TCP_KEEPIDLE 10,
       Event.setsockoptCall o.socketRet IPPROTO_TCP TCP_KEEPINTVL 5,
       Event.setsockoptCall o.socketRet IPPROTO_TCP TCP_KEEPCNT 3,
       Event.bindCall o.socketRet INADDR_ANY (port % 65536),
       Event.listenCall o.socketRet maxClients] := by
  unfold createServerSocket at h ⊢
  simp only at h ⊢
  split at h
  · exact absurd h (by simp)
  · split at h
    · exact absurd h (by simp)
    · split at h
      · exact absurd h (by simp)
      · split at h
        · exact absurd h (by simp)
        · split at h
          · exact absurd h (by simp)
          · split at h
            · exact absurd h (by simp)
            · split at h
              · exact absurd h (by simp)
              · split at h
                · exact absurd h (by simp)
                · have hfd : fd = o.socketRet := by simpa using h.symm
                  subst hfd
                  rename_i hsock hreuse hka hki hkv hkc hb hl
                  have hr0 : o.reuseRet = 0 := not_not.mp hreuse
                  exact ⟨rfl, by simp [hsock, hr0, hka, hki, hkv, hkc, hb, hl]⟩

/-- Claim C4 witness: an all-success oracle returning descriptor 3 on
port 8080 with backlog 5. -/
theorem createServerSocket_keepalive_witness :
    (3 : Int) = (ServerOracle.mk 3 0 0 0 0 0 0 0).socketRet ∧
    (createServerSocket ⟨3, 0, 0, 0, 0, 0, 0, 0⟩ 8080 5).2 =
      [Event.socketCall,
       Event.setsockoptCall 3 SOL_SOCKET (Int.lor SO_REUSEADDR SO_REUSEPORT) 1,
       Event.setsockoptCall 3 SOL_SOCKET SO_KEEPALIVE 1,
       Event.setsockoptCall 3 IPPROTO_TCP TCP_KEEPIDLE 10,
       Event.setsockoptCall 3 IPPROTO_TCP TCP_KEEPINTVL 5,
       Event.setsockoptCall 3 IPPROTO_TCP TCP_KEEPCNT 3,
       Event.bindCall 3 INADDR_ANY (8080 % 65536),
       Event.listenCall 3 5] :=
  createServerSocket_keepalive ⟨3, 0, 0, 0, 0, 0, 0, 0⟩ 8080 5 3 rfl

/-- One `recv(fd, buffer, len, flags)` call issued by the liveness scan. -/
structure PeekCall where
  fd : Int
  flags : Int
  len : Nat
  deriving DecidableEq, Repr

/-- Outcome of a `checkClientConnections` run: the updated client-socket
array, the recv (peek) calls issued, and the descriptors closed. -/
structure CheckResult where
  slots : List Int
  recvs : List PeekCall
  closes : List Int
  deriving DecidableEq, Repr

/-- One iteration of the `checkClientConnections` loop body
(src/src/tcp-sock.c lines 164-171) on a slot holding `fd`: if the slot is
nonzero, `recv(fd, buffer, 1, MSG_PEEK | MSG_DONTWAIT)` is issued (its
outcome given by the oracle `peek`); a result of 0 closes the descriptor
(via `handleClientDisconnection`, line 157-160) and zeroes the slot;
any other result leaves the slot as it was.  Returns the new slot value,
the peeks issued and the descriptors closed. -/
def checkSlot (peek : Int → Int) (fd : Int) : Int × List PeekCall × List Int :=
  if fd ≠ 0 then
    if peek fd = 0 then
      (0, [PeekCall.mk fd (Int.lor MSG_PEEK MSG_DONTWAIT) 1], [fd])
    else (fd, [PeekCall.mk fd (Int.lor MSG_PEEK MSG_DONTWAIT) 1], [])
  else (fd, [], [])

/-- Embeds `checkClientConnections` (src/src/tcp-sock.c lines 162-174):
the loop runs `i` from 0 to `maxClients - 1` over the array of the caller,
applying `checkSlot` to each of the first `maxClients` entries; entries
beyond `maxClients` are untouched.  `peek` is the oracle for the
non-blocking peek outcome on each descriptor. -/
def checkClientConnections (peek : Int → Int) (slots : List Int)
    (maxClients : Nat) : CheckResult :=
  let front := (slots.take maxClients).map (checkSlot peek)
  CheckResult.mk
    (front.map (fun t => t.1) ++ slots.drop maxClients)
    (front.map (fun t => t.2.1)).flatten
    (front.map (fun t => t.2.2)).flatten

theorem checkSlot_fst (peek : Int → Int) (fd : Int) :
    (checkSlot peek fd).1 = if fd ≠ 0 ∧ peek fd = 0 then 0 else fd := by
  unfold checkSlot
  by_cases h : fd = 0
  · simp [h]
  · by_cases hp : peek fd = 0 <;> simp [h, hp]

theorem checkClientConnections_closes_spec (peek : Int → Int)
    (slots : List Int) (m : Nat) :
    ∀ x ∈ (checkClientConnections peek slots m).closes, x ≠ 0 ∧ peek x = 0 := by
  intro x hx
  unfold checkClientConnections at hx
  simp only at hx
  rcases List.mem_flatten.mp hx with ⟨ls, hls, hxl⟩
  rcases List.mem_map.mp hls with ⟨t, ht, rfl⟩
  rcases List.mem_map.mp ht with ⟨fd, hfd, rfl⟩
  unfold checkSlot at hxl
  by_cases h : fd = 0
  · simp [h] at hxl
  · by_cases hp : peek fd = 0
    · simp [h, hp] at hxl
      subst hxl
      exact ⟨h, hp⟩
    · simp [h, hp] at hxl

theorem checkClientConnections_recvs_spec (peek : Int → Int)
    (slots : List Int) (m : Nat) :
    ∀ c ∈ (checkClientConnections peek slots m).recvs, c.fd ≠ 0 := by
  intro c hc
  unfold checkClientConnections at hc
  simp only at hc
  rcases List.mem_flatten.mp hc with ⟨ls, hls, hcl⟩
  rcases List.mem_map.mp hls with ⟨t, ht, rfl⟩
  rcases List.mem_map.mp ht with ⟨fd, hfd, rfl⟩
  unfold checkSlot at hcl
  by_cases h : fd = 0
  · simp [h] at hcl
  · by_cases hp : peek fd = 0 <;> simp [h, hp] at hcl <;> simp [hcl, h]

theorem checkClientConnections_recvs_mem (peek : Int → Int)
    (slots : List Int) (m i : Nat) (him : i < m) (hil : i < slots.length)
    (hnz : slots[i] ≠ 0) :
    PeekCall.mk slots[i] (Int.lor MSG_PEEK MSG_DONTWAIT) 1 ∈
      (checkClientConnections peek slots m).recvs := by
  have hlen : i < (slots.take m).length := by
    simp only [List.length_take]
    omega
  have htake : (slots.take m)[i] = slots[i] := List.getElem_take _
  have hmem : slots[i] ∈ slots.take m := htake ▸ List.getElem_mem hlen
  unfold checkClientConnections
  simp only
  refine List.mem_flatten.mpr ⟨(checkSlot peek slots[i]).2.1, ?_, ?_⟩
  · exact List.mem_map_of_mem _ (List.mem_map_of_mem _ hmem)
  · unfold checkSlot
    by_cases hp : peek slots[i] = 0 <;> simp [hnz, hp]

theorem checkClientConnections_closes_mem (peek : Int → Int)
    (slots : List Int) (m i : Nat) (him : i < m) (hil : i < slots.length)
    (hnz : slots[i] ≠ 0) (hp : peek slots[i] = 0) :
    slots[i] ∈ (checkClientConnections peek slots m).closes := by
  have hlen : i < (slots.take m).length := by
    simp only [List.length_take]
    omega
  have htake : (slots.take m)[i] = slots[i] := List.getElem_take _
  have hmem : slots[i] ∈ slots.take m := htake ▸ List.getElem_mem hlen
  unfold checkClientConnections
  simp only
  refine List.mem_flatten.mpr ⟨(checkSlot peek slots[i]).2.2, ?_, ?_⟩
  · exact List.mem_map_of_mem _ (List.mem_map_of_mem _ hmem)
  · unfold checkSlot
    simp [hnz, hp]

theorem checkClientConnections_get_lt (peek : Int → Int)
    (slots : List Int) (m i : Nat) (him : i < m) (hil : i < slots.length) :
    (checkClientConnections peek slots m).slots[i]? =
      some ((checkSlot peek slots[i]).1) := by
  unfold checkClientConnections
  simp only
  rw [List.getElem?_append_left (by simp [List.length_take]; omega),
    List.getElem?_map, List.getElem?_map, List.getElem?_take_of_lt him,
    List.getElem?_eq_getElem hil]
  rfl

theorem checkClientConnections_get_ge (peek : Int → Int)
    (slots : List Int) (m i : Nat) (him : m ≤ i) :
    (checkClientConnections peek slots m).slots[i]? = slots[i]? := by
  unfold checkClientConnections
  simp only
  have hfl : (((slots.take m).map (checkSlot peek)).map
      (fun t => t.1)).length = min m slots.length := by
    simp [List.length_take]
  rw [List.getElem?_append_right (by omega), hfl, List.getElem?_drop]
  rcases le_or_lt m slots.length with hc | hc
  · have : min m slots.length = m := by omega
    rw [this]
    congr 1
    omega
  · have h1 : slots[i]? = none := List.getElem?_eq_none (by omega)
    have h2 : slots[m + (i - min m slots.length)]? = none :=
      List.getElem?_eq_none (by omega)
    rw [h1, h2]

/-- Claim C5: for every index i below maxClients whose slot is nonzero,
`checkClientConnections` issues a non-blocking peek
(`recv(fd, buf, 1, MSG_PEEK | MSG_DONTWAIT)`) on that descriptor; if the
peek returns 0 the descriptor is closed and the slot is set to 0; if the
peek returns a negative value the slot keeps its original descriptor and
that descriptor is not closed. -/
theorem checkClientConnections_liveness (peek : Int → Int)
    (slots : List Int) (m i : Nat) (him : i < m) (hil : i < slots.length)
    (hnz : slots[i] ≠ 0) :
    PeekCall.mk slots[i] (Int.lor MSG_PEEK MSG_DONTWAIT) 1 ∈
      (checkClientConnections peek slots m).recvs ∧
    (peek slots[i] = 0 →
      (checkClientConnections peek slots m).slots[i]? = some 0 ∧
      slots[i] ∈ (checkClientConnections peek slots m).closes) ∧
    (peek slots[i] < 0 →
      (checkClientConnections peek slots m).slots[i]? = some slots[i] ∧
      slots[i] ∉ (checkClientConnections peek slots m).closes) := by
  refine ⟨checkClientConnections_recvs_mem peek slots m i him hil hnz,
    fun hp => ⟨?_, checkClientConnections_closes_mem peek slots m i him hil hnz hp⟩,
    fun hp => ⟨?_, fun hmem => ?_⟩⟩
  · rw [checkClientConnections_get_lt peek slots m i him hil, checkSlot_fst]
    simp [hnz, hp]
  · rw [checkClientConnections_get_lt peek slots m i him hil, checkSlot_fst]
    have : ¬ peek slots[i] = 0 := by omega
    simp [hnz, this]
  · have := (checkClientConnections_closes_spec peek slots m slots[i] hmem).2
    omega

/-- Claim C5 witness: slots [7, 0, 9] with maxClients 3 under a peek
oracle reporting 0 on descriptor 7 (peer closed) and -11 (EAGAIN-like)
on descriptor 9. -/
theorem checkClientConnections_liveness_witness :
    (PeekCall.mk 7 (Int.lor MSG_PEEK MSG_DONTWAIT) 1 ∈
      (checkClientConnections (fun fd => if fd = 7 then 0 else -11)
        [7, 0, 9] 3).recvs ∧
     (checkClientConnections (fun fd => if fd = 7 then 0 else -11)
        [7, 0, 9] 3).slots[0]? = some 0 ∧
     (7 : Int) ∈ (checkClientConnections (fun fd => if fd = 7 then 0 else -11)
        [7, 0, 9] 3).closes) ∧
    ((checkClientConnections (fun fd => if fd = 7 then 0 else -11)
        [7, 0, 9] 3).slots[2]? = some 9 ∧
     (9 : Int) ∉ (checkClientConnections (fun fd => if fd = 7 then 0 else -11)
        [7, 0, 9] 3).closes) := by
  have h0 := checkClientConnections_liveness
    (fun fd => if fd = 7 then 0 else -11) [7, 0, 9] 3 0
    (by norm_num) (by norm_num) (by norm_num)
  have h2 := checkClientConnections_liveness
    (fun fd => if fd = 7 then 0 else -11) [7, 0, 9] 3 2
    (by norm_num) (by norm_num) (by norm_num)
  exact ⟨⟨h0.1, (h0.2.1 (by norm_num)).1, (h0.2.1 (by norm_num)).2⟩,
    ⟨(h2.2.2 (by norm_num)).1, (h2.2.2 (by norm_num)).2⟩⟩

/-- Claim C9: frame property of `checkClientConnections` — the array keeps
its length; every final slot value is the original value or 0; slots at
index at least maxClients are unchanged; a slot holding 0 stays 0 and
the value 0 is never passed to recv or close; and the peeks and closes
are entirely determined by the first maxClients entries (no element
beyond maxClients is read). -/
theorem checkClientConnections_frame (peek : Int → Int) (slots : List Int)
    (m : Nat) :
    (checkClientConnections peek slots m).slots.length = slots.length ∧
    (∀ i, i < slots.length →
      (checkClientConnections peek slots m).slots[i]? = slots[i]? ∨
      (checkClientConnections peek slots m).slots[i]? = some 0) ∧
    (∀ i, m ≤ i →
      (checkClientConnections peek slots m).slots[i]? = slots[i]?) ∧
    (∀ i, ∀ hil : i < slots.length, i < m → slots[i] = 0 →
      (checkClientConnections peek slots m).slots[i]? = some 0) ∧
    (∀ c ∈ (checkClientConnections peek slots m).recvs, c.fd ≠ 0) ∧
    (∀ x ∈ (checkClientConnections peek slots m).closes, x ≠ 0) ∧
    (checkClientConnections peek slots m).recvs =
      (checkClientConnections peek (slots.take m) m).recvs ∧
    (checkClientConnections peek slots m).closes =
      (checkClientConnections peek (slots.take m) m).closes := by
  refine ⟨?_, ?_, fun i him => checkClientConnections_get_ge peek slots m i him,
    ?_, checkClientConnections_recvs_spec peek slots m,
    fun x hx => (checkClientConnections_closes_spec peek slots m x hx).1,
    ?_, ?_⟩
  · unfold checkClientConnections
    simp only [List.length_append, List.length_map, List.length_take,
      List.length_drop]
    omega
  · intro i hil
    rcases Nat.lt_or_ge i m with him | him
    · rw [checkClientConnections_get_lt peek slots m i him hil, checkSlot_fst]
      by_cases h : slots[i] ≠ 0 ∧ peek slots[i] = 0
      · right
        simp [h]
      · left
        simp [h, List.getElem?_eq_getElem hil]
    · left
      exact checkClientConnections_get_ge peek slots m i him
  · intro i hil him hz
    rw [checkClientConnections_get_lt peek slots m i him hil, checkSlot_fst]
    simp [hz]
  · unfold checkClientConnections
    simp only [List.take_take, Nat.min_self]
  · unfold checkClientConnections
    simp only [List.take_take, Nat.min_self]

/-- Claim C9 witness: the frame conjuncts evaluated on the array
[5, 0, 6, 8] with maxClients 2 under a peek oracle that closes
descriptor 5 only. -/
theorem checkClientConnections_frame_witness :
    (checkClientConnections (fun fd => if fd = 5 then 0 else -11)
      [5, 0, 6, 8] 2).slots.length = 4 ∧
    (checkClientConnections (fun fd => if fd = 5 then 0 else -11)
      [5, 0, 6, 8] 2).slots[2]? = some 6 ∧
    (checkClientConnections (fun fd => if fd = 5 then 0 else -11)
      [5, 0, 6, 8] 2).slots[1]? = some 0 ∧
    (checkClientConnections (fun fd => if fd = 5 then 0 else -11)
      [5, 0, 6, 8] 2).closes =
      (checkClientConnections (fun fd => if fd = 5 then 0 else -11)
        ([5, 0, 6, 8].take 2) 2).closes := by
  have h := checkClientConnections_frame
    (fun fd => if fd = 5 then 0 else -11) [5, 0, 6, 8] 2
  exact ⟨h.1, h.2.2.1 2 (by norm_num), h.2.2.2.1 1 (by norm_num) (by norm_num)
    (by norm_num), h.2.2.2.2.2.2.2⟩

/-- The kernel-side state of one direction of a connected TCP socket
pair: the reliable, in-order byte stream of bytes sent and not yet
received (bytes modelled as Nat). -/
structure Channel where
  pending : List Nat
  deriving DecidableEq, Repr

/-- The `send(iSock, buf, len, 0)` syscall on the reliable byte-stream
model: the payload is appended to the stream and its byte count is
returned (the case of a send buffer too full to accept the whole
payload, which the spec notes the code does not loop over, is outside
this model). -/
def kernelSend (ch : Channel) (payload : List Nat) : Int × Channel :=
  ((payload.length : Int), Channel.mk (ch.pending ++ payload))

/-- The blocking `recv(iSock, buf, len, 0)` syscall on the reliable
byte-stream model: up to `len` bytes are taken from the front of the
stream; the bytes delivered and their count are returned. -/
def kernelRecv (ch : Channel) (len : Nat) : Int × List Nat × Channel :=
  let d := ch.pending.take len
  ((d.length : Int), d, Channel.mk (ch.pending.drop len))

/-- Embeds `sendMessage` (src/src/tcp-sock.c lines 191-198): one `send`
call; a negative result returns -1, otherwise the byte count sent is
returned unchanged. -/
def sendMessage (ch : Channel) (payload : List Nat) : Int × Channel :=
  let s := kernelSend ch payload
  if s.1 < 0 then (-1, s.2) else (s.1, s.2)

/-- Embeds `recvMsgBlocking` (src/src/tcp-sock.c lines 201-208): one
blocking `recv` call; a negative result returns -1, otherwise the byte
count received is returned unchanged, along with the bytes placed in the
buffer of the caller. -/
def recvMsgBlocking (ch : Channel) (len : Nat) : Int × List Nat × Channel :=
  let r := kernelRecv ch len
  if r.1 < 0 then (-1, r.2.1, r.2.2) else (r.1, r.2.1, r.2.2)

/-- Claim C7: for every N-byte payload sent with `sendMessage` over the
connected pair, a subsequent `recvMsgBlocking` on the peer with a buffer
of at least N bytes returns exactly N, and the bytes received are
identical to the payload. -/
theorem sendMessage_recvMsgBlocking_roundTrip (payload : List Nat)
    (len : Nat) (hlen : payload.length ≤ len) :
    (sendMessage (Channel.mk []) payload).1 = (payload.length : Int) ∧
    (recvMsgBlocking (sendMessage (Channel.mk []) payload).2 len).1 =
      (payload.length : Int) ∧
    (recvMsgBlocking (sendMessage (Channel.mk []) payload).2 len).2.1 =
      payload := by
  have htake : payload.take len = payload := List.take_of_length_le hlen
  have h1 : ¬ ((payload.length : Int) < 0) := by omega
  unfold sendMessage kernelSend
  simp only [List.nil_append, h1, if_false]
  unfold recvMsgBlocking kernelRecv
  simp only [htake, h1, if_false]
  simp

/-- Claim C7 witness: the 3-byte payload [72, 105, 33] received into a
128-byte buffer. -/
theorem sendMessage_recvMsgBlocking_roundTrip_witness :
    (sendMessage (Channel.mk []) [72, 105, 33]).1 = 3 ∧
    (recvMsgBlocking (sendMessage (Channel.mk []) [72, 105, 33]).2 128).1 = 3 ∧
    (recvMsgBlocking (sendMessage (Channel.mk []) [72, 105, 33]).2 128).2.1 =
      [72, 105, 33] :=
  sendMessage_recvMsgBlocking_roundTrip [72, 105, 33] 128 (by norm_num)

end TcpSock
